import Mathlib

/-!
Verification development for the BIND10/bundy Response Rate Limiter (RRL),
a shallow embedding of `src/bin/auth/rrl/rrl.cc` and of the spec-described
collaborators (`RRLTable`, `RRLEntry`, `RRLRate`, timestamp bases) whose
sources are not part of this repository snapshot.

Machine integers are modelled as `Nat`/`Int` with explicit `% 256`
truncation where the C code narrows to `uint8_t`.  The fallible
constructor is modelled with `Except`, and the `assert(entry)` in
`ResponseLimiter::check` is modelled by returning `Option` (with `none`
standing for an assertion failure).
-/

namespace RRL

/-- Response categories, from `rrl_response_type.h` (values named in
`rrl.cc`): `RESPONSE_QUERY`, `RESPONSE_NXDOMAIN`, `RESPONSE_ERROR`. -/
inductive ResponseType where
  | RESPONSE_QUERY
  | RESPONSE_NXDOMAIN
  | RESPONSE_ERROR
deriving DecidableEq, Repr

export ResponseType (RESPONSE_QUERY RESPONSE_NXDOMAIN RESPONSE_ERROR)

/-- Verdicts of the limiter.  Modelled from the spec: the spec fixes
`Verdict ∈ {OK, DROP, SLIP}` (the defining header is not in the
snapshot; `rrl.cc` uses the values `RRL_OK`, `RRL_DROP`, `RRL_SLIP`). -/
inductive Result where
  | RRL_OK
  | RRL_DROP
  | RRL_SLIP
deriving DecidableEq, Repr

export Result (RRL_OK RRL_DROP RRL_SLIP)

/-- DNS `Rcode` as its 12-bit wire code.  `Rcode::NOERROR()` has code 0
and `Rcode::NXDOMAIN()` has code 3. -/
def RCODE_NOERROR : Nat := 0

/-- Wire code of `Rcode::NXDOMAIN()`. -/
def RCODE_NXDOMAIN : Nat := 3

/-- `convertRcode` from `rrl.cc`: `NOERROR → RESPONSE_QUERY`,
`NXDOMAIN → RESPONSE_NXDOMAIN`, everything else → `RESPONSE_ERROR`. -/
def convertRcode (rcode : Nat) : ResponseType :=
  if rcode = RCODE_NOERROR then RESPONSE_QUERY
  else if rcode = RCODE_NXDOMAIN then RESPONSE_NXDOMAIN
  else RESPONSE_ERROR

/-- The byte-accumulating part of `setMask` from `rrl.cc`: the
`while (plen > 8)` loop pushes `0xff` bytes, and the final
`if (plen > 0)` pushes `0xff << (8 - plen)` narrowed to `uint8_t`
(hence `% 256`).  The prefix length is a `Nat` here because the
constructor rejects negative prefix lengths before calling `setMask`;
the `n+9` pattern is the `plen > 8` loop guard and the recursive call
receives `plen - 8 = n+1`. -/
def setMaskCore : Nat → List Nat
  | n + 9 => 0xff :: setMaskCore (n + 1)
  | n + 1 => [(0xff <<< (8 - (n + 1))) % 256]
  | 0 => []

/-- `setMask` from `rrl.cc`: build the byte prefix, then pad with zero
bytes up to `mask_len` (`buf.insert(buf.end(), mask_len - buf.size(), 0)`). -/
def setMask (mask_len : Nat) (plen : Nat) : List Nat :=
  let buf := setMaskCore plen
  buf ++ List.replicate (mask_len - buf.length) 0

/-- First assertion in `setMask`: `assert(buf.size() <= mask_len)`. -/
def setMaskAssert1 (mask_len : Nat) (plen : Nat) : Prop :=
  (setMaskCore plen).length ≤ mask_len

/-- Second assertion in `setMask`: after padding,
`assert(buf.size() == mask_len)`. -/
def setMaskAssert2 (mask_len : Nat) (plen : Nat) : Prop :=
  (setMask mask_len plen).length = mask_len

/-- `sizeof(ipv4_mask_)`: the IPv4 mask is a `uint32_t`, 4 bytes. -/
def IPV4_MASK_LEN : Nat := 4

/-- `sizeof(ipv6_mask_)`: the IPv6 mask is a `uint32_t[4]`, 16 bytes. -/
def IPV6_MASK_LEN : Nat := 16

/-- Modelled from the spec: the rate vector of `rrl_rate.h` (not in the
snapshot) "holds three configured rates" (spec 4.3), constructed in
`rrl.cc` as `rates_(responses_per_second, nxdomains_per_second,
errors_per_second)`. -/
structure RRLRate where
  responses_per_second : Int
  nxdomains_per_second : Int
  errors_per_second : Int
deriving DecidableEq, Repr

/-- Modelled from the spec: "rate(category) returns responses-per-second"
(spec 4.3), used by `rrl.cc` as `rates_.getRate(RESPONSE_QUERY)` etc. -/
def RRLRate.getRate (r : RRLRate) : ResponseType → Int
  | RESPONSE_QUERY => r.responses_per_second
  | RESPONSE_NXDOMAIN => r.nxdomains_per_second
  | RESPONSE_ERROR => r.errors_per_second

/-- Address family of a client endpoint (`IOEndpoint` is external to the
snapshot; only its family and address bytes matter to the limiter). -/
inductive Family where
  | ipv4
  | ipv6
deriving DecidableEq, Repr

/-- Client endpoint: family plus address bytes (4 bytes for IPv4,
16 for IPv6), each byte a `Nat` below 256. -/
structure IOEndpoint where
  family : Family
  addr : List Nat
deriving DecidableEq, Repr

/-- Byte-wise AND of an address with a mask, zeroing the masked-off bits. -/
def maskAddr (addr mask : List Nat) : List Nat :=
  List.zipWith (fun a m => a &&& m) addr mask

/-- Modelled from the spec: the `RRLKey` of `rrl_key.h` (not in the
snapshot).  Spec 4.1: the key carries the masked address
(family-tagged), the response category, the DNS class, the DNS type and
the query name; "for responses in the Error category the qname is
intentionally omitted from the key".  Equality is byte-wise on the
canonical form; the seeded hash only chooses the bucket in the real
table and is irrelevant to the list-modelled table below, so it is not
stored. -/
structure RRLKey where
  addr : List Nat
  family : Family
  qtype : Nat
  qclass : Nat
  resp_type : ResponseType
  qname : Option (List Nat)
deriving DecidableEq, Repr

/-- Modelled from the spec: construction of `RRLKey(client_addr, qtype,
qname, qclass, resp_type, ipv4_mask, ipv6_mask, hash_seed)` as invoked
from `rrl.cc`: mask the endpoint address with the family's configured
mask (spec 4.6 step 3) and omit the qname for the Error category
(spec 4.1).  The name is accepted opaquely (spec 4.1). -/
def RRLKey.make (client_addr : IOEndpoint) (qtype : Nat)
    (qname : Option (List Nat)) (qclass : Nat) (resp_type : ResponseType)
    (ipv4_mask ipv6_mask : List Nat) (_hash_seed : Nat) : RRLKey :=
  { addr := match client_addr.family with
      | Family.ipv4 => maskAddr client_addr.addr ipv4_mask
      | Family.ipv6 => maskAddr client_addr.addr ipv6_mask,
    family := client_addr.family,
    qtype := qtype,
    qclass := qclass,
    resp_type := resp_type,
    qname := if resp_type = RESPONSE_ERROR then none else qname }

/-- Modelled from the spec: entries store a 12-bit offset from a base
timestamp (spec 4.2), so the largest representable offset is 4095. -/
def MAX_OFFSET : Nat := 4095

/-- Modelled from the spec: one table entry (`rrl_entry.h` is not in the
snapshot).  Spec 3: key fingerprint, timestamp base, last-used offset,
signed balance `responses`, flags `{logging, log_only_applied}`.  Per
the spec 9 modelling note ("hold the state directly"), the timestamp
base pool is folded in: each entry stores its base wall-second
directly, and an entry is stale when `now` has drifted more than
`MAX_OFFSET` from that base.  The slip counter implements "every
slip-th penalized response in a row" (spec 4.4). -/
structure RRLEntry where
  key : RRLKey
  responses : Int
  last_used_offset : Nat
  base_second : Nat
  logging : Bool
  log_only_applied : Bool
  slip_counter : Nat
deriving DecidableEq, Repr

/-- Modelled from the spec: initialization of a fresh entry (spec 4.5
step 3): "copy the key, set `responses = rate(category)`,
`last_used_offset = 0`, allocate a base id". -/
def RRLEntry.initFor (key : RRLKey) (rate : Int) (now : Nat) : RRLEntry :=
  { key := key, responses := rate, last_used_offset := 0, base_second := now,
    logging := false, log_only_applied := false, slip_counter := 0 }

/-- Modelled from the spec: `RRLEntry::updateBalance(bases, rates, slip,
qname_size, now, window)` (spec 4.4, the token-bucket update; the
defining source is not in the snapshot).  Steps: a zero configured
rate disables limiting (spec 4.3, always `OK`); on a stale base,
reinitialize and return `OK`; otherwise regenerate credit capped at
one second's worth, charge one token, and classify, clamping debt at
`-window * rate` and slipping every `slip`-th consecutive penalized
response.  The unused `qname_size` mirrors the call in `rrl.cc`, which
passes `0`. -/
def RRLEntry.updateBalance (e : RRLEntry) (rates : RRLRate) (slip : Int)
    (_qname_size : Nat) (now : Nat) (window : Int) : Result × RRLEntry :=
  let rate := rates.getRate e.key.resp_type
  if rate = 0 then
    (RRL_OK, e)
  else if now < e.base_second ∨ MAX_OFFSET < now - e.base_second then
    (RRL_OK, { e with
                 responses := rate
                 base_second := now
                 last_used_offset := 0
                 logging := false
                 log_only_applied := false
                 slip_counter := 0 })
  else
    let now_offset := now - e.base_second
    let elapsed : Int := max 0 ((now_offset : Int) - (e.last_used_offset : Int))
    let regenerated := min rate (e.responses + rate * elapsed)
    let charged := regenerated - 1
    if 0 ≤ charged then
      (RRL_OK, { e with
                   responses := charged
                   last_used_offset := now_offset
                   slip_counter := 0 })
    else
      let clamped := max charged (-(window * rate))
      let sc := e.slip_counter + 1
      let verdict := if 0 < slip ∧ (sc : Int) % slip = 0 then RRL_SLIP else RRL_DROP
      (verdict, { e with
                    responses := clamped
                    last_used_offset := now_offset
                    slip_counter := sc })

/-- Modelled from the spec: the hash table of `rrl_table.h` (not in the
snapshot).  Per the spec 9 modelling note, entries live in one list in
LRU order (head = most recently used); the bucketed chains and the
free/idle lists only accelerate lookup and do not change which entry a
key maps to, since lookup "compar[es] full keys" (spec 4.5).
`max_entries` is the configured hard cap (`max_table_size`). -/
structure RRLTable where
  entries : List RRLEntry
  max_entries : Nat
deriving DecidableEq, Repr

/-- `RRLTable::getEntryCount()`, called from `rrl.cc`'s
`getEntryCount`: the number of live entries. -/
def RRLTable.getEntryCount (t : RRLTable) : Nat :=
  t.entries.length

/-- Modelled from the spec: chain search (spec 4.5 step 1), returning
the matching entry and the remaining entries in order. -/
def findEntry : List RRLEntry → RRLKey → Option (RRLEntry × List RRLEntry)
  | [], _ => none
  | e :: rest, key =>
    if e.key = key then some (e, rest)
    else
      match findEntry rest key with
      | some (f, rest1) => some (f, e :: rest1)
      | none => none

/-- Modelled from the spec: `RRLTable::getEntry(key, bases, rates, now,
window)` (spec 4.5; the defining source is not in the snapshot).  On a
hit the entry is returned (the caller re-links it at the LRU head); on
a miss a fresh entry is initialized while capacity remains, and
otherwise the LRU tail is recycled.  The spec's evict-if-recovered /
grow / steal-oldest alternatives all surrender the LRU tail in this
list model, and the logging-scan is immaterial because nothing in the
snapshot ever marks an entry logging; `window` only tunes the evict
choice and is therefore unused here.  `none` (the table handing back
no entry) is possible only when the table is empty with zero
capacity. -/
def RRLTable.getEntry (t : RRLTable) (key : RRLKey) (rates : RRLRate)
    (now : Nat) (_window : Int) : Option (RRLEntry × RRLTable) :=
  match findEntry t.entries key with
  | some (e, rest) => some (e, { t with entries := rest })
  | none =>
    if t.entries.length < t.max_entries then
      some (RRLEntry.initFor key (rates.getRate key.resp_type) now, t)
    else
      match t.entries.getLast? with
      | some _ => some (RRLEntry.initFor key (rates.getRate key.resp_type) now,
                        { t with entries := t.entries.dropLast })
      | none => none

/-- Modelled from the spec: `boost::hash_combine`'s mixing step (the
library is external to the snapshot), truncated to 64 bits. -/
def hashCombine (seed v : Nat) : Nat :=
  (seed ^^^ (v + 0x9e3779b9 + (seed <<< 6) + (seed >>> 2))) % 2 ^ 64

/-- `getHashSeed` from `rrl.cc`: combine `now` and the process id into a
seed that is "reasonably (though not cryptographically) unpredictable".
The ambient `getpid()` becomes an explicit argument. -/
def getHashSeed (now pid : Nat) : Nat :=
  (hashCombine (hashCombine 0 now) pid) % 2 ^ 32

/-- The state behind `ResponseLimiter::ResponseLimiterImpl` in `rrl.cc`:
table, rate vector, window, slip, log-only flag, prefix lengths, the
two masks (as byte lists), and the hash seed.  The timestamp base pool
is folded into the entries (spec 9 modelling note), and the disabled
`log_names_` pool is omitted with the disabled logging code. -/
structure ResponseLimiterState where
  table_ : RRLTable
  rates_ : RRLRate
  window_ : Int
  slip_ : Int
  log_only_ : Bool
  ipv4_prefixlen_ : Int
  ipv4_mask_ : List Nat
  ipv6_prefixlen_ : Int
  ipv6_mask_ : List Nat
  hash_seed_ : Nat
deriving DecidableEq, Repr

/-- The `ResponseLimiterImpl` constructor from `rrl.cc`, with `isc_throw
(InvalidParameter, ...)` modelled as `Except.error`: reject an IPv4
prefix length outside `[0, 32]`, then an IPv6 prefix length outside
`[0, 128]`, then build the two masks, then reject
`max_table_size < min_table_size`.  `table_(max_table_size)` plus
`expandEntries(min_table_size)` / `expand(now)` pre-allocate entries
without creating live ones, so the table starts empty with cap
`max_table_size`. -/
def ResponseLimiter.make (max_table_size min_table_size : Nat)
    (responses_per_second nxdomains_per_second errors_per_second : Int)
    (window slip : Int) (ipv4_prefixlen ipv6_prefixlen : Int)
    (log_only : Bool) (now pid : Nat) : Except String ResponseLimiterState :=
  if ipv4_prefixlen < 0 ∨ 32 < ipv4_prefixlen then
    Except.error "InvalidParameter: bad IPv4 prefix"
  else if ipv6_prefixlen < 0 ∨ 128 < ipv6_prefixlen then
    Except.error "InvalidParameter: bad IPv6 prefix"
  else
    let ipv4_mask := setMask IPV4_MASK_LEN ipv4_prefixlen.toNat
    let ipv6_mask := setMask IPV6_MASK_LEN ipv6_prefixlen.toNat
    if max_table_size < min_table_size then
      Except.error "InvalidParameter: max-table-size must not be smaller than min-table-size"
    else
      Except.ok
        { table_ := { entries := [], max_entries := max_table_size },
          rates_ := { responses_per_second := responses_per_second,
                      nxdomains_per_second := nxdomains_per_second,
                      errors_per_second := errors_per_second },
          window_ := window, slip_ := slip, log_only_ := log_only,
          ipv4_prefixlen_ := ipv4_prefixlen, ipv4_mask_ := ipv4_mask,
          ipv6_prefixlen_ := ipv6_prefixlen, ipv6_mask_ := ipv6_mask,
          hash_seed_ := getHashSeed now pid }

/-- `ResponseLimiter::getResponseRate()` from `rrl.cc`. -/
def ResponseLimiter.getResponseRate (s : ResponseLimiterState) : Int :=
  s.rates_.getRate RESPONSE_QUERY

/-- `ResponseLimiter::getNXDOMAINRate()` from `rrl.cc`. -/
def ResponseLimiter.getNXDOMAINRate (s : ResponseLimiterState) : Int :=
  s.rates_.getRate RESPONSE_NXDOMAIN

/-- `ResponseLimiter::getErrorRate()` from `rrl.cc`. -/
def ResponseLimiter.getErrorRate (s : ResponseLimiterState) : Int :=
  s.rates_.getRate RESPONSE_ERROR

/-- `ResponseLimiter::getEntryCount()` from `rrl.cc`. -/
def ResponseLimiter.getEntryCount (s : ResponseLimiterState) : Nat :=
  s.table_.getEntryCount

/-- `ResponseLimiter::getWindow()` from `rrl.cc`. -/
def ResponseLimiter.getWindow (s : ResponseLimiterState) : Int :=
  s.window_

/-- `ResponseLimiter::getSlip()` from `rrl.cc`. -/
def ResponseLimiter.getSlip (s : ResponseLimiterState) : Int :=
  s.slip_

/-- `ResponseLimiter::isLogOnly()` from `rrl.cc`. -/
def ResponseLimiter.isLogOnly (s : ResponseLimiterState) : Bool :=
  s.log_only_

/-- `ResponseLimiter::getIPv4Mask()` from `rrl.cc`. -/
def ResponseLimiter.getIPv4Mask (s : ResponseLimiterState) : List Nat :=
  s.ipv4_mask_

/-- `ResponseLimiter::getIPv6Mask()` from `rrl.cc`. -/
def ResponseLimiter.getIPv6Mask (s : ResponseLimiterState) : List Nat :=
  s.ipv6_mask_

/-- `ResponseLimiter::check` from `rrl.cc`.  A TCP (reliable-transport)
response returns `RRL_OK` before touching any state.  Otherwise the
rcode is classified, the key built and the table asked for the entry
(`assert(entry)` becomes the `none` branch); `updateBalance` decides
the verdict, the entry is re-linked at the LRU head, and — because the
logging block at the end of `check` is compiled out (`#if 0`) — the
`log_msg` buffer is returned untouched on every path, mirroring the
commented-out parameter `std::string& /*log_msg*/`. -/
def ResponseLimiter.check (s : ResponseLimiterState)
    (client_addr : IOEndpoint) (is_tcp : Bool) (qclass qtype : Nat)
    (qname : Option (List Nat)) (rcode : Nat) (now : Nat)
    (log_msg : String) : Option (Result × ResponseLimiterState × String) :=
  if is_tcp then
    some (RRL_OK, s, log_msg)
  else
    let resp_type := convertRcode rcode
    match s.table_.getEntry
        (RRLKey.make client_addr qtype qname qclass resp_type
          s.ipv4_mask_ s.ipv6_mask_ s.hash_seed_)
        s.rates_ now s.window_ with
    | none => none
    | some (entry, t1) =>
      let rb := entry.updateBalance s.rates_ s.slip_ 0 now s.window_
      let s1 := { s with table_ := { t1 with entries := rb.2 :: t1.entries } }
      if rb.1 = RRL_OK then
        some (RRL_OK, s1, log_msg)
      else
        some (rb.1, s1, log_msg)

/-- One recorded argument tuple for a `check` call, for stating
properties of call sequences. -/
structure CheckArgs where
  client_addr : IOEndpoint
  is_tcp : Bool
  qclass : Nat
  qtype : Nat
  qname : Option (List Nat)
  rcode : Nat
  now : Nat
deriving DecidableEq, Repr

/-- Run a sequence of `check` calls, threading the limiter state;
`none` if any call hits the (never-firing) assertion. -/
def runChecks (s : ResponseLimiterState) : List CheckArgs → Option ResponseLimiterState
  | [] => some s
  | a :: rest =>
    match ResponseLimiter.check s a.client_addr a.is_tcp a.qclass a.qtype
        a.qname a.rcode a.now "" with
    | none => none
    | some (_, s1, _) => runChecks s1 rest

/-- Whether no entry of the table is marked logging. -/
def noLogging (t : RRLTable) : Bool :=
  t.entries.all (fun e => !e.logging)

/-- A sample IPv4 client endpoint (192.0.2.7), as in the spec's
end-to-end scenarios. -/
def sampleAddr : IOEndpoint :=
  { family := Family.ipv4, addr := [192, 0, 2, 7] }

/-- The /24 IPv4 mask bytes. -/
def sampleIPv4Mask : List Nat := [255, 255, 255, 0]

/-- The /56 IPv6 mask bytes. -/
def sampleIPv6Mask : List Nat :=
  [255, 255, 255, 255, 255, 255, 255, 0, 0, 0, 0, 0, 0, 0, 0, 0]

/-- The limiter state produced by the constructor for the spec's
scenario configuration: rates 5/5/5, window 15, slip 2, prefix
lengths 24 and 56, table sizes 64..1024, `log_only = false`,
constructed at second 1000 in process 42. -/
def sampleConfigState : ResponseLimiterState :=
  { table_ := { entries := [], max_entries := 1024 },
    rates_ := { responses_per_second := 5, nxdomains_per_second := 5,
                errors_per_second := 5 },
    window_ := 15, slip_ := 2, log_only_ := false,
    ipv4_prefixlen_ := 24, ipv4_mask_ := sampleIPv4Mask,
    ipv6_prefixlen_ := 56, ipv6_mask_ := sampleIPv6Mask,
    hash_seed_ := getHashSeed 1000 42 }

/-- The key `check` builds for `sampleAddr`, class IN (1), type A (1),
rcode NOERROR under `sampleConfigState`. -/
def sampleKey : RRLKey :=
  RRLKey.make sampleAddr 1 none 1 (convertRcode 0)
    sampleConfigState.ipv4_mask_ sampleConfigState.ipv6_mask_
    sampleConfigState.hash_seed_

/-- The entry the table creates for `sampleKey` on a miss at second
1000 (the Query rate is 5). -/
def sampleEntry : RRLEntry :=
  RRLEntry.initFor sampleKey 5 1000

/-- A recorded TCP (reliable-transport) call. -/
def sampleTcpCall : CheckArgs :=
  { client_addr := sampleAddr, is_tcp := true, qclass := 1, qtype := 1,
    qname := none, rcode := 0, now := 1000 }

/-- A limiter state with one Error-category entry for `sampleAddr`
whose balance is fully drained (`responses = 0`), rates 1/1/1,
window 15, slip 0: the very next Error response for this client is
penalized. -/
def cexEntry : RRLEntry :=
  { key := RRLKey.make sampleAddr 1 none 1 (convertRcode 5)
      sampleIPv4Mask sampleIPv6Mask 0,
    responses := 0, last_used_offset := 0, base_second := 0,
    logging := false, log_only_applied := false, slip_counter := 0 }

/-- The limiter state holding `cexEntry`. -/
def cexState : ResponseLimiterState :=
  { table_ := { entries := [cexEntry], max_entries := 64 },
    rates_ := { responses_per_second := 1, nxdomains_per_second := 1,
                errors_per_second := 1 },
    window_ := 15, slip_ := 0, log_only_ := false,
    ipv4_prefixlen_ := 24, ipv4_mask_ := sampleIPv4Mask,
    ipv6_prefixlen_ := 56, ipv6_mask_ := sampleIPv6Mask,
    hash_seed_ := 0 }

/-- `cexState` after the penalized call: the entry went one token into
debt and counted one consecutive penalized response; its logging flag
is still clear. -/
def cexStateAfter : ResponseLimiterState :=
  { cexState with
      table_ := { entries := [{ cexEntry with
                                  responses := -1
                                  slip_counter := 1 }],
                  max_entries := 64 } }

section MaskLemmas

/-- Each byte the `setMask` loop accumulates carries the right bits:
bit `7 - j` of byte `i` (network bit order: `j = 0` is the most
significant bit of the byte) is set exactly when bit position
`8 * i + j` lies inside the prefix. -/
theorem setMaskCore_testBit (plen : Nat) : ∀ (i j : Nat), j < 8 →
    ((setMaskCore plen).getD i 0).testBit (7 - j) = decide (8 * i + j < plen) := by
  induction plen using Nat.strong_induction_on with
  | _ plen IH =>
    intro i j hj
    rcases Nat.lt_or_ge plen 9 with h9 | h9
    · cases i with
      | zero =>
        interval_cases plen <;> interval_cases j <;> decide
      | succ i =>
        have hz : (setMaskCore plen).getD (i + 1) 0 = 0 := by
          interval_cases plen <;> simp [setMaskCore, List.getD]
        rw [hz]
        rw [Nat.zero_testBit]
        symm
        rw [decide_eq_false_iff_not]
        omega
    · obtain ⟨n, rfl⟩ : ∃ n, plen = n + 9 := ⟨plen - 9, by omega⟩
      rw [setMaskCore.eq_1]
      cases i with
      | zero =>
        simp only [List.getD_cons_zero]
        rw [show (255 : ℕ) = 2 ^ 8 - 1 by norm_num, Nat.testBit_two_pow_sub_one]
        have h1 : 7 - j < 8 := by omega
        simp [h1]
        omega
      | succ i =>
        simp only [List.getD_cons_succ]
        rw [IH (n + 1) (by omega) i j hj]
        simp only [decide_eq_decide]
        omega

/-- The loop produces `⌈plen / 8⌉` bytes. -/
theorem setMaskCore_length (plen : Nat) :
    (setMaskCore plen).length = (plen + 7) / 8 := by
  induction plen using Nat.strong_induction_on with
  | _ plen IH =>
    rcases Nat.lt_or_ge plen 9 with h9 | h9
    · interval_cases plen <;> simp [setMaskCore]
    · obtain ⟨n, rfl⟩ : ∃ n, plen = n + 9 := ⟨plen - 9, by omega⟩
      rw [setMaskCore.eq_1]
      rw [List.length_cons, IH (n + 1) (by omega)]
      omega

/-- Reading a list of zero bytes through `getD` with default `0`
always gives `0`. -/
theorem getD_replicate_zero (k i : Nat) :
    (List.replicate k (0 : Nat)).getD i 0 = 0 := by
  induction k generalizing i with
  | zero => simp
  | succ k ih => cases i <;> simp [List.replicate, ih]

/-- Padding a list with zero bytes changes no byte read through `getD`
with default `0`. -/
theorem getD_append_replicate_zero (l : List Nat) (k i : Nat) :
    (l ++ List.replicate k 0).getD i 0 = l.getD i 0 := by
  induction l generalizing i with
  | nil => simp [getD_replicate_zero]
  | cons a l ih =>
    cases i with
    | zero => rfl
    | succ i =>
      simp only [List.cons_append, List.getD_cons_succ]
      exact ih i

/-- The padded mask reads byte-wise like the accumulated loop bytes. -/
theorem setMask_getD (mask_len plen i : Nat) :
    (setMask mask_len plen).getD i 0 = (setMaskCore plen).getD i 0 := by
  unfold setMask
  exact getD_append_replicate_zero (setMaskCore plen) _ i

/-- After padding, the mask has exactly `mask_len` bytes whenever the
prefix fits, i.e. `plen ≤ 8 * mask_len`. -/
theorem setMask_length (mask_len plen : Nat) (h : plen ≤ 8 * mask_len) :
    (setMask mask_len plen).length = mask_len := by
  unfold setMask
  rw [List.length_append, List.length_replicate, setMaskCore_length]
  omega

/-- Reading a masked address byte-wise: `getD` commutes with the
byte-wise AND (out-of-range reads give `0` on both sides). -/
theorem maskAddr_getD (addr mask : List Nat) (i : Nat) :
    (maskAddr addr mask).getD i 0 = (addr.getD i 0) &&& (mask.getD i 0) := by
  induction addr generalizing mask i with
  | nil => simp [maskAddr]
  | cons a addr ih =>
    cases mask with
    | nil => simp [maskAddr]
    | cons m mask =>
      cases i with
      | zero => simp [maskAddr]
      | succ i =>
        simp only [maskAddr, List.zipWith_cons_cons, List.getD_cons_succ]
        exact ih mask i

end MaskLemmas

section ConstructorLemmas

/-- Successful construction pins down every configuration field of the
resulting state and the range checks the parameters passed. -/
theorem make_ok_fields (max_table_size min_table_size : Nat)
    (rps nps eps window slip p4 p6 : Int) (log_only : Bool) (now pid : Nat)
    (s : ResponseLimiterState)
    (h : ResponseLimiter.make max_table_size min_table_size rps nps eps window
          slip p4 p6 log_only now pid = Except.ok s) :
    s.table_ = { entries := [], max_entries := max_table_size } ∧
    s.rates_ = { responses_per_second := rps, nxdomains_per_second := nps,
                 errors_per_second := eps } ∧
    s.window_ = window ∧ s.slip_ = slip ∧ s.log_only_ = log_only ∧
    s.ipv4_prefixlen_ = p4 ∧ s.ipv4_mask_ = setMask IPV4_MASK_LEN p4.toNat ∧
    s.ipv6_prefixlen_ = p6 ∧ s.ipv6_mask_ = setMask IPV6_MASK_LEN p6.toNat ∧
    s.hash_seed_ = getHashSeed now pid ∧
    0 ≤ p4 ∧ p4 ≤ 32 ∧ 0 ≤ p6 ∧ p6 ≤ 128 ∧
    min_table_size ≤ max_table_size := by
  simp only [ResponseLimiter.make] at h
  split_ifs at h with h1 h2 h3
  all_goals first
    | exact Except.noConfusion h
    | (injection h with h
       subst h
       refine ⟨rfl, rfl, rfl, rfl, rfl, rfl, rfl, rfl, rfl, rfl,
         ?_, ?_, ?_, ?_, ?_⟩ <;> omega)

end ConstructorLemmas

/-- C2: the `ResponseLimiterImpl` constructor raises `InvalidParameter`
exactly when the IPv4 prefix length leaves `[0, 32]`, or the IPv6
prefix length leaves `[0, 128]`, or `max_table_size <
min_table_size`; for every configuration satisfying all three
constraints it succeeds without raising. -/
theorem constructor_invalidParameter_iff (max_table_size min_table_size : Nat)
    (rps nps eps window slip p4 p6 : Int) (log_only : Bool) (now pid : Nat) :
    ((∃ s, ResponseLimiter.make max_table_size min_table_size rps nps eps
        window slip p4 p6 log_only now pid = Except.ok s) ↔
      (0 ≤ p4 ∧ p4 ≤ 32 ∧ 0 ≤ p6 ∧ p6 ≤ 128 ∧
        min_table_size ≤ max_table_size)) ∧
    ((∃ e, ResponseLimiter.make max_table_size min_table_size rps nps eps
        window slip p4 p6 log_only now pid = Except.error e) ↔
      (p4 < 0 ∨ 32 < p4 ∨ p6 < 0 ∨ 128 < p6 ∨
        max_table_size < min_table_size)) := by
  unfold ResponseLimiter.make
  split_ifs with h1 h2 h3 <;> constructor <;> simp <;> omega

/-- C3: `convertRcode` classifies every rcode into exactly one of the
three categories: `NOERROR` (code 0) to Query, `NXDOMAIN` (code 3) to
NxDomain, and every other code — known or unassigned — to Error,
totally and without raising. -/
theorem convertRcode_classification (rcode : Nat) :
    (convertRcode rcode = RESPONSE_QUERY ↔ rcode = RCODE_NOERROR) ∧
    (convertRcode rcode = RESPONSE_NXDOMAIN ↔ rcode = RCODE_NXDOMAIN) ∧
    (convertRcode rcode = RESPONSE_ERROR ↔
      (rcode ≠ RCODE_NOERROR ∧ rcode ≠ RCODE_NXDOMAIN)) := by
  unfold convertRcode RCODE_NOERROR RCODE_NXDOMAIN
  split_ifs with h1 h2 <;> simp_all

/-- C9: for prefix lengths that pass the constructor's range checks,
both assertions inside `setMask` hold: the accumulated buffer never
exceeds the mask length, and after padding it is exactly the mask
length — so the assertions never fire for either address family. -/
theorem setMask_assertions_hold (plen4 plen6 : Nat)
    (h4 : plen4 ≤ 32) (h6 : plen6 ≤ 128) :
    setMaskAssert1 IPV4_MASK_LEN plen4 ∧ setMaskAssert2 IPV4_MASK_LEN plen4 ∧
    setMaskAssert1 IPV6_MASK_LEN plen6 ∧ setMaskAssert2 IPV6_MASK_LEN plen6 := by
  unfold setMaskAssert1 setMaskAssert2 IPV4_MASK_LEN IPV6_MASK_LEN
  refine ⟨?_, ?_, ?_, ?_⟩
  · rw [setMaskCore_length]
    omega
  · exact setMask_length 4 plen4 (by omega)
  · rw [setMaskCore_length]
    omega
  · exact setMask_length 16 plen6 (by omega)

/-- Witness for C9 at the scenario prefix lengths 24 and 56. -/
theorem setMask_assertions_hold_witness :
    setMaskAssert1 IPV4_MASK_LEN 24 ∧ setMaskAssert2 IPV4_MASK_LEN 24 ∧
    setMaskAssert1 IPV6_MASK_LEN 56 ∧ setMaskAssert2 IPV6_MASK_LEN 56 :=
  setMask_assertions_hold 24 56 (by decide) (by decide)

/-- C5: a validly constructed limiter stores an IPv4 mask of 4 bytes
whose first `ipv4_prefixlen` bits are ones and remaining bits zeros,
and an IPv6 mask of 16 bytes whose first `ipv6_prefixlen` bits are
ones and remaining bits zeros (bit `j` of byte `i` counted in network
order as position `8 * i + j`); consequently every masked-off address
bit of a key built with these masks is zero. -/
theorem constructed_masks_bits (max_table_size min_table_size : Nat)
    (rps nps eps window slip p4 p6 : Int) (log_only : Bool) (now pid : Nat)
    (s : ResponseLimiterState)
    (h : ResponseLimiter.make max_table_size min_table_size rps nps eps window
          slip p4 p6 log_only now pid = Except.ok s) :
    ((ResponseLimiter.getIPv4Mask s).length = 4 ∧
      (∀ i j, j < 8 →
        ((ResponseLimiter.getIPv4Mask s).getD i 0).testBit (7 - j)
          = decide ((8 * i + j : Int) < p4))) ∧
    ((ResponseLimiter.getIPv6Mask s).length = 16 ∧
      (∀ i j, j < 8 →
        ((ResponseLimiter.getIPv6Mask s).getD i 0).testBit (7 - j)
          = decide ((8 * i + j : Int) < p6))) ∧
    (∀ (addr : List Nat) (i j : Nat), j < 8 → p4 ≤ (8 * i + j : Int) →
      ((maskAddr addr (ResponseLimiter.getIPv4Mask s)).getD i 0).testBit (7 - j)
        = false) ∧
    (∀ (addr : List Nat) (i j : Nat), j < 8 → p6 ≤ (8 * i + j : Int) →
      ((maskAddr addr (ResponseLimiter.getIPv6Mask s)).getD i 0).testBit (7 - j)
        = false) := by
  obtain ⟨-, -, -, -, -, -, hm4, -, hm6, -, hp4l, hp4u, hp6l, hp6u, -⟩ :=
    make_ok_fields max_table_size min_table_size rps nps eps window slip
      p4 p6 log_only now pid s h
  have g4 : ResponseLimiter.getIPv4Mask s = setMask IPV4_MASK_LEN p4.toNat := hm4
  have g6 : ResponseLimiter.getIPv6Mask s = setMask IPV6_MASK_LEN p6.toNat := hm6
  have bits4 : ∀ i j, j < 8 →
      ((ResponseLimiter.getIPv4Mask s).getD i 0).testBit (7 - j)
        = decide ((8 * i + j : Int) < p4) := by
    intro i j hj
    rw [g4, setMask_getD, setMaskCore_testBit _ i j hj, decide_eq_decide]
    omega
  have bits6 : ∀ i j, j < 8 →
      ((ResponseLimiter.getIPv6Mask s).getD i 0).testBit (7 - j)
        = decide ((8 * i + j : Int) < p6) := by
    intro i j hj
    rw [g6, setMask_getD, setMaskCore_testBit _ i j hj, decide_eq_decide]
    omega
  refine ⟨⟨?_, bits4⟩, ⟨?_, bits6⟩, ?_, ?_⟩
  · rw [g4]
    exact setMask_length _ _ (by unfold IPV4_MASK_LEN; omega)
  · rw [g6]
    exact setMask_length _ _ (by unfold IPV6_MASK_LEN; omega)
  · intro addr i j hj hge
    rw [maskAddr_getD, Nat.testBit_land, bits4 i j hj,
      decide_eq_false (by omega : ¬ ((8 * i + j : Int) < p4)), Bool.and_false]
  · intro addr i j hj hge
    rw [maskAddr_getD, Nat.testBit_land, bits6 i j hj,
      decide_eq_false (by omega : ¬ ((8 * i + j : Int) < p6)), Bool.and_false]

/-- Witness for C5: the scenario configuration (prefix length 24)
yields `sampleConfigState`, and bit position 24 (byte 3, bit 0) of
its IPv4 mask is a masked-off zero bit. -/
theorem constructed_masks_bits_witness :
    ((ResponseLimiter.getIPv4Mask sampleConfigState).getD 3 0).testBit (7 - 0)
      = decide ((8 * 3 + 0 : Int) < 24) :=
  (constructed_masks_bits 1024 64 5 5 5 15 2 24 56 false 1000 42
    sampleConfigState (by rfl)).1.2 3 0 (by decide)

section CheckLemmas

/-- A sequence of reliable-transport calls leaves the limiter state
exactly as it was. -/
theorem runChecks_all_tcp (s : ResponseLimiterState) (calls : List CheckArgs)
    (hc : ∀ c ∈ calls, c.is_tcp = true) : runChecks s calls = some s := by
  induction calls with
  | nil => rfl
  | cons a rest ih =>
    have ha := hc a (List.mem_cons_self a rest)
    simp only [runChecks, ha, ResponseLimiter.check, if_true]
    exact ih (fun c hcm => hc c (List.mem_cons_of_mem a hcm))

/-- `check` rewrites at most the table; every configuration field of
the limiter survives a call unchanged. -/
theorem check_preserves_config (s : ResponseLimiterState)
    (client_addr : IOEndpoint) (is_tcp : Bool) (qclass qtype : Nat)
    (qname : Option (List Nat)) (rcode : Nat) (now : Nat) (log_msg : String)
    (r : Result) (s1 : ResponseLimiterState) (lm1 : String)
    (h : ResponseLimiter.check s client_addr is_tcp qclass qtype qname rcode
          now log_msg = some (r, s1, lm1)) :
    s1.rates_ = s.rates_ ∧ s1.window_ = s.window_ ∧ s1.slip_ = s.slip_ ∧
    s1.log_only_ = s.log_only_ ∧ s1.ipv4_mask_ = s.ipv4_mask_ ∧
    s1.ipv6_mask_ = s.ipv6_mask_ ∧ s1.hash_seed_ = s.hash_seed_ := by
  simp only [ResponseLimiter.check] at h
  split at h
  · simp only [Option.some.injEq, Prod.mk.injEq] at h
    obtain ⟨-, rfl, -⟩ := h
    exact ⟨rfl, rfl, rfl, rfl, rfl, rfl, rfl⟩
  · split at h
    · exact Option.noConfusion h
    · split at h <;>
        (simp only [Option.some.injEq, Prod.mk.injEq] at h
         obtain ⟨-, rfl, -⟩ := h
         exact ⟨rfl, rfl, rfl, rfl, rfl, rfl, rfl⟩)

/-- Configuration fields survive any sequence of `check` calls. -/
theorem runChecks_preserves_config (s : ResponseLimiterState)
    (calls : List CheckArgs) (s1 : ResponseLimiterState)
    (h : runChecks s calls = some s1) :
    s1.rates_ = s.rates_ ∧ s1.window_ = s.window_ ∧ s1.slip_ = s.slip_ ∧
    s1.log_only_ = s.log_only_ := by
  induction calls generalizing s with
  | nil =>
    simp only [runChecks, Option.some.injEq] at h
    subst h
    exact ⟨rfl, rfl, rfl, rfl⟩
  | cons a rest ih =>
    simp only [runChecks] at h
    rcases hc : ResponseLimiter.check s a.client_addr a.is_tcp a.qclass a.qtype
        a.qname a.rcode a.now "" with - | ⟨r, s2, lm⟩
    · rw [hc] at h
      exact Option.noConfusion h
    · rw [hc] at h
      obtain ⟨c1, c2, c3, c4, -⟩ := check_preserves_config s a.client_addr
        a.is_tcp a.qclass a.qtype a.qname a.rcode a.now "" r s2 lm hc
      obtain ⟨d1, d2, d3, d4⟩ := ih s2 h
      exact ⟨d1.trans c1, d2.trans c2, d3.trans c3, d4.trans c4⟩

/-- A successful chain search returns one of the live entries, and the
remaining entries all come from the original list. -/
theorem findEntry_mem (key : RRLKey) : ∀ (l : List RRLEntry)
    (e : RRLEntry) (rest : List RRLEntry),
    findEntry l key = some (e, rest) → e ∈ l ∧ ∀ x ∈ rest, x ∈ l := by
  intro l
  induction l with
  | nil => intro e rest h; exact Option.noConfusion h
  | cons a l ih =>
    intro e rest h
    simp only [findEntry] at h
    split at h
    · simp only [Option.some.injEq, Prod.mk.injEq] at h
      obtain ⟨rfl, rfl⟩ := h
      exact ⟨List.mem_cons_self a l, fun x hx => List.mem_cons_of_mem a hx⟩
    · rcases hf : findEntry l key with - | ⟨f, rest1⟩
      · rw [hf] at h
        exact Option.noConfusion h
      · rw [hf] at h
        simp only [Option.some.injEq, Prod.mk.injEq] at h
        obtain ⟨h1, h2⟩ := h
        subst h1
        subst h2
        obtain ⟨he, hrest⟩ := ih _ _ hf
        refine ⟨List.mem_cons_of_mem a he, ?_⟩
        intro x hx
        rcases List.mem_cons.mp hx with rfl | hx
        · exact List.mem_cons_self x l
        · exact List.mem_cons_of_mem a (hrest x hx)

/-- The token-bucket update never raises the logging flag: it either
keeps it or clears it on a stale reset. -/
theorem updateBalance_keeps_logging_clear (e : RRLEntry) (rates : RRLRate)
    (slip : Int) (q : Nat) (now : Nat) (window : Int)
    (h : e.logging = false) :
    ((e.updateBalance rates slip q now window).2).logging = false := by
  simp only [RRLEntry.updateBalance]
  split_ifs <;> simp [h]

/-- The entry handed back by the table is either one of the live
entries or a freshly initialized one (whose logging flag is clear),
and the rest of the table consists of previously live entries. -/
theorem getEntry_provenance (t : RRLTable) (key : RRLKey) (rates : RRLRate)
    (now : Nat) (window : Int) (e : RRLEntry) (t1 : RRLTable)
    (h : t.getEntry key rates now window = some (e, t1)) :
    (e ∈ t.entries ∨ e.logging = false) ∧ ∀ x ∈ t1.entries, x ∈ t.entries := by
  unfold RRLTable.getEntry at h
  rcases hf : findEntry t.entries key with - | ⟨f, rest⟩ <;> rw [hf] at h <;>
    dsimp only at h
  · split at h
    · simp only [Option.some.injEq, Prod.mk.injEq] at h
      obtain ⟨h1, h2⟩ := h
      subst h1
      subst h2
      exact ⟨Or.inr rfl, fun x hx => hx⟩
    · rcases hl : t.entries.getLast? with - | last <;> rw [hl] at h <;>
        dsimp only at h
      · exact Option.noConfusion h
      · simp only [Option.some.injEq, Prod.mk.injEq] at h
        obtain ⟨h1, h2⟩ := h
        subst h1
        subst h2
        refine ⟨Or.inr rfl, ?_⟩
        intro x hx
        exact (List.dropLast_sublist t.entries).subset hx
  · simp only [Option.some.injEq, Prod.mk.injEq] at h
    obtain ⟨h1, h2⟩ := h
    subst h1
    subst h2
    obtain ⟨he, hrest⟩ := findEntry_mem key t.entries _ _ hf
    exact ⟨Or.inl he, hrest⟩

/-- The table always produces an entry as long as it is non-empty or
has any capacity: hit, create, or steal the LRU tail. -/
theorem getEntry_isSome (t : RRLTable) (key : RRLKey) (rates : RRLRate)
    (now : Nat) (window : Int)
    (h : t.entries ≠ [] ∨ 0 < t.max_entries) :
    (t.getEntry key rates now window).isSome = true := by
  unfold RRLTable.getEntry
  rcases hf : findEntry t.entries key with - | ⟨f, rest⟩ <;> dsimp only
  · split
    · rfl
    · rename_i hlen
      rcases hl : t.entries.getLast? with - | last <;> dsimp only
      · rw [List.getLast?_eq_none_iff] at hl
        rcases h with h | h
        · exact absurd hl h
        · refine absurd ?_ hlen
          rw [hl]
          simpa using h
      · rfl
  · rfl

end CheckLemmas

/-- C1: a `check` call with `is_tcp = true` returns `RRL_OK` and leaves
the limiter state — table, entries, and (folded-in) timestamp bases —
byte-for-byte unchanged, with the log buffer returned as passed; a
whole sequence of reliable-transport calls equally changes nothing,
so on a fresh limiter (entry count 0) any number of such calls leaves
`getEntryCount()` equal to 0. -/
theorem tcp_bypass_no_state_change (s : ResponseLimiterState)
    (client_addr : IOEndpoint) (qclass qtype : Nat) (qname : Option (List Nat))
    (rcode : Nat) (now : Nat) (log_msg : String) (calls : List CheckArgs)
    (hcalls : ∀ c ∈ calls, c.is_tcp = true)
    (hfresh : ResponseLimiter.getEntryCount s = 0) :
    ResponseLimiter.check s client_addr true qclass qtype qname rcode now log_msg
      = some (RRL_OK, s, log_msg) ∧
    runChecks s calls = some s ∧
    Option.map ResponseLimiter.getEntryCount (runChecks s calls) = some 0 := by
  refine ⟨rfl, runChecks_all_tcp s calls hcalls, ?_⟩
  rw [runChecks_all_tcp s calls hcalls]
  simp [hfresh]

/-- Witness for C1: 2 reliable-transport calls on the fresh scenario
limiter return `RRL_OK`, change nothing and keep the entry count 0. -/
theorem tcp_bypass_no_state_change_witness :
    ResponseLimiter.check sampleConfigState sampleAddr true 1 1 none 0 1000 "buf"
      = some (RRL_OK, sampleConfigState, "buf") ∧
    runChecks sampleConfigState [sampleTcpCall, sampleTcpCall]
      = some sampleConfigState ∧
    Option.map ResponseLimiter.getEntryCount
      (runChecks sampleConfigState [sampleTcpCall, sampleTcpCall]) = some 0 :=
  tcp_bypass_no_state_change sampleConfigState sampleAddr 1 1 none 0 1000 "buf"
    [sampleTcpCall, sampleTcpCall] (by decide) (by rfl)

/-- C6: a `check` call with `is_tcp = false` that obtains an entry from
the table returns exactly the verdict `updateBalance` produced on that
entry, and that verdict is one of `RRL_OK`, `RRL_DROP`, `RRL_SLIP` —
no other result exists. -/
theorem check_returns_updateBalance_verdict (s : ResponseLimiterState)
    (client_addr : IOEndpoint) (qclass qtype : Nat) (qname : Option (List Nat))
    (rcode : Nat) (now : Nat) (log_msg : String)
    (entry : RRLEntry) (t1 : RRLTable)
    (hget : s.table_.getEntry
        (RRLKey.make client_addr qtype qname qclass (convertRcode rcode)
          s.ipv4_mask_ s.ipv6_mask_ s.hash_seed_) s.rates_ now s.window_
        = some (entry, t1)) :
    ResponseLimiter.check s client_addr false qclass qtype qname rcode now log_msg
      = some ((entry.updateBalance s.rates_ s.slip_ 0 now s.window_).1,
          { s with table_ := { t1 with entries :=
              (entry.updateBalance s.rates_ s.slip_ 0 now s.window_).2 :: t1.entries } },
          log_msg) ∧
    ((entry.updateBalance s.rates_ s.slip_ 0 now s.window_).1 = RRL_OK ∨
     (entry.updateBalance s.rates_ s.slip_ 0 now s.window_).1 = RRL_DROP ∨
     (entry.updateBalance s.rates_ s.slip_ 0 now s.window_).1 = RRL_SLIP) := by
  constructor
  · simp only [ResponseLimiter.check, Bool.false_eq_true, if_false, hget]
    split
    · rename_i hok
      rw [hok]
    · rfl
  · rcases (entry.updateBalance s.rates_ s.slip_ 0 now s.window_).1 <;> simp

/-- Witness for C6: the very first non-TCP call on the fresh scenario
limiter creates `sampleEntry`, and its `updateBalance` verdict is one
of the three results. -/
theorem check_returns_updateBalance_verdict_witness :
    (sampleEntry.updateBalance sampleConfigState.rates_ sampleConfigState.slip_
        0 1000 sampleConfigState.window_).1 = RRL_OK ∨
    (sampleEntry.updateBalance sampleConfigState.rates_ sampleConfigState.slip_
        0 1000 sampleConfigState.window_).1 = RRL_DROP ∨
    (sampleEntry.updateBalance sampleConfigState.rates_ sampleConfigState.slip_
        0 1000 sampleConfigState.window_).1 = RRL_SLIP :=
  (check_returns_updateBalance_verdict sampleConfigState sampleAddr 1 1 none 0
    1000 "" sampleEntry sampleConfigState.table_ (by rfl)).2

/-- C7: on every non-TCP call, `getEntry` hands back an entry (locating,
creating, or recycling one) whenever the table is non-empty or has
capacity, so the `assert(entry)` in `check` never fires and `check`
always returns a verdict. -/
theorem getEntry_total_check_returns (s : ResponseLimiterState)
    (client_addr : IOEndpoint) (qclass qtype : Nat) (qname : Option (List Nat))
    (rcode : Nat) (now : Nat) (log_msg : String)
    (h : s.table_.entries ≠ [] ∨ 0 < s.table_.max_entries) :
    (s.table_.getEntry
        (RRLKey.make client_addr qtype qname qclass (convertRcode rcode)
          s.ipv4_mask_ s.ipv6_mask_ s.hash_seed_) s.rates_ now s.window_).isSome
      = true ∧
    (ResponseLimiter.check s client_addr false qclass qtype qname rcode now
        log_msg).isSome = true := by
  have hg := getEntry_isSome s.table_
    (RRLKey.make client_addr qtype qname qclass (convertRcode rcode)
      s.ipv4_mask_ s.ipv6_mask_ s.hash_seed_) s.rates_ now s.window_ h
  refine ⟨hg, ?_⟩
  obtain ⟨⟨entry, t1⟩, hsome⟩ := Option.isSome_iff_exists.mp hg
  simp only [ResponseLimiter.check, Bool.false_eq_true, if_false, hsome]
  split <;> rfl

/-- Witness for C7 on the fresh scenario limiter (capacity 1024). -/
theorem getEntry_total_check_returns_witness :
    (sampleConfigState.table_.getEntry
        (RRLKey.make sampleAddr 1 none 1 (convertRcode 0)
          sampleConfigState.ipv4_mask_ sampleConfigState.ipv6_mask_
          sampleConfigState.hash_seed_) sampleConfigState.rates_ 1000
        sampleConfigState.window_).isSome = true ∧
    (ResponseLimiter.check sampleConfigState sampleAddr false 1 1 none 0 1000
        "").isSome = true :=
  getEntry_total_check_returns sampleConfigState sampleAddr 1 1 none 0 1000 ""
    (Or.inr (by decide))

/-- C8: after any sequence of `check` calls on a validly constructed
limiter, the introspection accessors still return the constructor's
configuration: `getWindow() = window`, `getSlip() = slip`,
`isLogOnly() = log_only`, and the three rate accessors return
`responses_per_second`, `nxdomains_per_second` and
`errors_per_second`. -/
theorem accessors_return_configuration (max_table_size min_table_size : Nat)
    (rps nps eps window slip p4 p6 : Int) (log_only : Bool) (now pid : Nat)
    (s s1 : ResponseLimiterState) (calls : List CheckArgs)
    (hmk : ResponseLimiter.make max_table_size min_table_size rps nps eps window
        slip p4 p6 log_only now pid = Except.ok s)
    (hrun : runChecks s calls = some s1) :
    ResponseLimiter.getWindow s1 = window ∧ ResponseLimiter.getSlip s1 = slip ∧
    ResponseLimiter.isLogOnly s1 = log_only ∧
    ResponseLimiter.getResponseRate s1 = rps ∧
    ResponseLimiter.getNXDOMAINRate s1 = nps ∧
    ResponseLimiter.getErrorRate s1 = eps := by
  obtain ⟨-, hr, hw, hsl, hlo, -⟩ :=
    make_ok_fields _ _ _ _ _ _ _ _ _ _ _ _ _ hmk
  obtain ⟨c1, c2, c3, c4⟩ := runChecks_preserves_config s calls s1 hrun
  unfold ResponseLimiter.getWindow ResponseLimiter.getSlip
    ResponseLimiter.isLogOnly ResponseLimiter.getResponseRate
    ResponseLimiter.getNXDOMAINRate ResponseLimiter.getErrorRate
  rw [c1, c2, c3, c4, hr, hw, hsl, hlo]
  exact ⟨rfl, rfl, rfl, rfl, rfl, rfl⟩

/-- Witness for C8: the scenario limiter after one TCP call still
reports its constructor configuration. -/
theorem accessors_return_configuration_witness :
    ResponseLimiter.getWindow sampleConfigState = 15 ∧
    ResponseLimiter.getSlip sampleConfigState = 2 ∧
    ResponseLimiter.isLogOnly sampleConfigState = false ∧
    ResponseLimiter.getResponseRate sampleConfigState = 5 ∧
    ResponseLimiter.getNXDOMAINRate sampleConfigState = 5 ∧
    ResponseLimiter.getErrorRate sampleConfigState = 5 :=
  accessors_return_configuration 1024 64 5 5 5 15 2 24 56 false 1000 42
    sampleConfigState sampleConfigState [sampleTcpCall] (by rfl) (by decide)

/-- C4 counterexample: the logging block at the end of `check` is
compiled out, so the claim fails at a concrete input.  `cexState`
holds a drained, non-logging entry with no penalized responses
counted yet; the next matching call is penalized (`RRL_DROP`, its
first penalized response, logging warranted per the claim), yet
`check` returns the log buffer unchanged and no entry is marked
logging. -/
theorem check_logging_disabled_counterexample :
    ResponseLimiter.check cexState sampleAddr false 1 1 none 5 0 ""
      = some (RRL_DROP, cexStateAfter, "") ∧
    cexEntry.logging = false ∧ cexEntry.slip_counter = 0 ∧
    List.map RRLEntry.logging cexStateAfter.table_.entries = [false] ∧
    List.map RRLEntry.slip_counter cexStateAfter.table_.entries = [1] := by
  decide

/-- C4 as amended: the logging block in `check` is disabled (`#if 0`),
so on every call — penalized or not — `check` returns the supplied
log-message buffer unchanged and never marks any entry logging: if no
entry was logging before the call, none is after. -/
theorem check_never_marks_logging (s : ResponseLimiterState)
    (client_addr : IOEndpoint) (is_tcp : Bool)
    (qclass qtype : Nat) (qname : Option (List Nat)) (rcode : Nat) (now : Nat)
    (log_msg : String) (r : Result) (s1 : ResponseLimiterState) (lm1 : String)
    (hclean : noLogging s.table_ = true)
    (h : ResponseLimiter.check s client_addr is_tcp qclass qtype qname rcode now
          log_msg = some (r, s1, lm1)) :
    lm1 = log_msg ∧ noLogging s1.table_ = true := by
  have hclean' : ∀ e ∈ s.table_.entries, e.logging = false := by
    simpa [noLogging, List.all_eq_true, Bool.not_eq_true'] using hclean
  simp only [ResponseLimiter.check] at h
  split at h
  · simp only [Option.some.injEq, Prod.mk.injEq] at h
    obtain ⟨-, rfl, rfl⟩ := h
    exact ⟨rfl, hclean⟩
  · rcases hget : s.table_.getEntry
        (RRLKey.make client_addr qtype qname qclass (convertRcode rcode)
          s.ipv4_mask_ s.ipv6_mask_ s.hash_seed_) s.rates_ now s.window_
      with - | ⟨entry, t1⟩
    · rw [hget] at h
      exact Option.noConfusion h
    · rw [hget] at h
      dsimp only at h
      obtain ⟨hprov, hsub⟩ := getEntry_provenance _ _ _ _ _ _ _ hget
      have hel : entry.logging = false := by
        rcases hprov with hm | hf
        · exact hclean' entry hm
        · exact hf
      split at h <;>
        (simp only [Option.some.injEq, Prod.mk.injEq] at h
         obtain ⟨-, rfl, rfl⟩ := h
         refine ⟨rfl, ?_⟩
         simp only [noLogging, List.all_eq_true, Bool.not_eq_true']
         intro x hx
         rcases List.mem_cons.mp hx with rfl | hx
         · exact updateBalance_keeps_logging_clear entry s.rates_ s.slip_ 0
             now s.window_ hel
         · exact hclean' x (hsub x hx))

/-- Witness for the amended C4 at the counterexample input. -/
theorem check_never_marks_logging_witness :
    "" = "" ∧ noLogging cexStateAfter.table_ = true :=
  check_never_marks_logging cexState sampleAddr false 1 1 none 5 0 "" RRL_DROP
    cexStateAfter "" (by decide) (by decide)

/-- C10: the verdict and the state transition of `check` are
independent of the contents of the log-message buffer argument, and
the buffer comes back exactly as supplied: a call with buffer
`log_msg` equals the call with any other buffer up to substituting
the untouched buffer back. -/
theorem check_logmsg_noninterference (s : ResponseLimiterState)
    (client_addr : IOEndpoint) (is_tcp : Bool) (qclass qtype : Nat)
    (qname : Option (List Nat)) (rcode : Nat) (now : Nat)
    (log_msg other : String) :
    ResponseLimiter.check s client_addr is_tcp qclass qtype qname rcode now log_msg
      = Option.map (fun x => (x.1, x.2.1, log_msg))
          (ResponseLimiter.check s client_addr is_tcp qclass qtype qname rcode
            now other) := by
  simp only [ResponseLimiter.check]
  split
  · rfl
  · split
    · rfl
    · split <;> rfl

end RRL
